import Mathlib

/-
Shallow embedding of the traffic-light relevance and stabilization engine
from ros/src/tl_detector/tl_detector.py.

Modelling conventions:
* Planar coordinates are rationals.  The source computes
  math.sqrt(dx**2 + dy**2) and only ever compares two such distances, or a
  distance against the constant 400.  Square roots are strictly monotone on
  nonnegative reals, so every comparison is performed here on the squared
  distance, against the squared bound 400 * 400; this preserves all
  comparison outcomes exactly.
* Python None is Option.none.  The function get_closest_waypoint can return
  the int -1 (its missing-argument branch), None, or a candidate index; its
  result type here is Option Int with some (-1) for the -1 branch.
* A raised exception (attribute access on None, indexing a list with None or
  an out-of-range int) is modelled as the outer none of an Option result.
-/

structure Position where
  x : ℚ
  y : ℚ
deriving DecidableEq, Repr

/-- Quat orientation, carried only because the source stores one in
each pose message; the nearest-mode search never reads it. -/
structure Quat where
  qx : ℚ
  qy : ℚ
  qz : ℚ
  qw : ℚ
deriving DecidableEq, Repr

structure Pose where
  position : Position
  orientation : Quat
deriving DecidableEq, Repr

/-- Color states from styx_msgs/TrafficLight (RED=0, YELLOW=1, GREEN=2,
UNKNOWN=4); only their identity matters to this module. -/
inductive Color where
  | red
  | yellow
  | green
  | unknown
deriving DecidableEq, Repr

/-- A /vehicle/traffic_lights entry: a pose plus a ground-truth color. -/
structure Light where
  pose : Pose
  state : Color
deriving DecidableEq, Repr

/-- Source constant STATE_COUNT_THRESHOLD = 3. -/
def STATE_COUNT_THRESHOLD : Nat := 3

/-- Squared planar distance between two poses.  The function
get_distance_between_poses in the source returns math.sqrt of this value; see the header
comment for why the square root is dropped. -/
def get_distance_between_poses (a b : Pose) : ℚ :=
  (a.position.x - b.position.x) * (a.position.x - b.position.x) +
    (a.position.y - b.position.y) * (a.position.y - b.position.y)

/-- Squared form of the search_range = 400 constant of the source. -/
def search_range_sq : ℚ := 400 * 400

/-- The mode argument of get_closest_waypoint: Python None (the default,
"nearest") or the string "forward". -/
inductive Mode where
  | nearest
  | forward
deriving DecidableEq, Repr

/-- The comparison dist < min_dist, where min_dist starts as float inf
(modelled as none). -/
def lt_min_dist (d : ℚ) (minD : Option ℚ) : Bool :=
  match minD with
  | none => true
  | some m => decide (d < m)

/-- The for-loop of get_closest_waypoint: walks the candidate list carrying
the running (min_dist, min_idx).  In "forward" mode the body computes the
car-orientation data and prints it but never updates min_dist or min_idx
(the branch ends in pass), exactly as in the source. -/
def gcw_loop (p : Pose) (mode : Mode) :
    List Pose → Nat → Option ℚ → Option Nat → Option Nat
  | [], _, _, minIdx => minIdx
  | wp :: rest, i, minD, minIdx =>
    let d := get_distance_between_poses wp p
    if lt_min_dist d minD && decide (d < search_range_sq) then
      match mode with
      | Mode.nearest => gcw_loop p mode rest (i + 1) (some d) (some i)
      | Mode.forward => gcw_loop p mode rest (i + 1) minD minIdx
    else
      gcw_loop p mode rest (i + 1) minD minIdx

/-- get_closest_waypoint(pose, waypoints, mode).  Returns some (-1) when
either argument is Python None (the early return -1 of the source), otherwise
the final min_idx of the loop: none when nothing was recorded, some i for an index. -/
def get_closest_waypoint (pose : Option Pose) (waypoints : Option (List Pose))
    (mode : Mode) : Option Int :=
  match waypoints, pose with
  | none, _ => some (-1)
  | _, none => some (-1)
  | some wps, some p => (gcw_loop p mode wps 0 none none).map fun n => (n : Int)

/-- Python list indexing with an int subscript: negative indices wrap from
the end; out of range raises (none). -/
def pyIndex {α : Type} (xs : List α) (i : Int) : Option α :=
  let j : Int := if i < 0 then (xs.length : Int) + i else i
  if 0 ≤ j then xs.get? j.toNat else none

/-- The debounce fields of TLDetector: self.state, self.last_state,
self.last_wp, self.state_count. -/
structure StabState where
  state : Color
  last_state : Color
  last_wp : Int
  state_count : Nat
deriving DecidableEq, Repr

/-- Initial stabilizer state set in __init__: UNKNOWN, UNKNOWN, -1, 0. -/
def stabInit : StabState :=
  { state := Color.unknown, last_state := Color.unknown,
    last_wp := -1, state_count := 0 }

/-- The publish logic of image_cb on one (light_wp, state) result.  The
source increments self.state_count once at the end of the callback; here
the increment is folded into each branch.  The returned Option Int is the
value published this frame (none: the first branch publishes nothing). -/
def image_cb_step (s : StabState) (light_wp : Int) (st : Color) :
    StabState × Option Int :=
  if s.state ≠ st then
    ({ s with state := st, state_count := 0 + 1 }, none)
  else if STATE_COUNT_THRESHOLD ≤ s.state_count then
    ({ s with last_state := s.state,
              last_wp := if st = Color.red then light_wp else -1,
              state_count := s.state_count + 1 },
     some (if st = Color.red then light_wp else -1))
  else
    ({ s with state_count := s.state_count + 1 }, some s.last_wp)

/-- Feed the same raw (light_wp, state) pair to the stabilizer for n
consecutive frames, collecting the published outputs in order. -/
def run_stab (s : StabState) (w : Int) (c : Color) :
    Nat → StabState × List (Option Int)
  | 0 => (s, [])
  | n + 1 =>
    let step := image_cb_step s w c
    let rest := run_stab step.1 w c n
    (rest.1, step.2 :: rest.2)

/-- The mutable snapshots of TLDetector: pose and waypoints caches (None
until their first callback), the traffic-light list, the stop-line poses
built from configuration at startup, and the debounce fields. -/
structure DetectorState where
  pose : Option Pose
  waypoints : Option (List Pose)
  lights : List Light
  stop_line_positions_poses : List Pose
  stab : StabState
deriving DecidableEq, Repr

/-- The poses of the cached lights, as scanned by the candidate loop. -/
def lightPoses (lights : List Light) : List Pose :=
  lights.map Light.pose

/-- Step 1 of process_traffic_lights: the light search
get_closest_waypoint(self.pose.pose, self.lights); no mode argument is
passed, so the default (nearest) applies. -/
def light_idx (s : DetectorState) (p : Pose) : Option Int :=
  get_closest_waypoint (some p) (some (lightPoses s.lights)) Mode.nearest

/-- Step 2a: get_closest_waypoint(lights[light_idx].pose.pose,
self.stop_line_positions_poses); default mode. -/
def stop_line_idx (s : DetectorState) (light : Light) : Option Int :=
  get_closest_waypoint (some light.pose) (some s.stop_line_positions_poses)
    Mode.nearest

/-- Step 2b: get_closest_waypoint(self.pose.pose,
self.stop_line_positions_poses); default mode. -/
def stop_forward_idx (s : DetectorState) (p : Pose) : Option Int :=
  get_closest_waypoint (some p) (some s.stop_line_positions_poses)
    Mode.nearest

/-- process_traffic_lights.  The outer none models a raised exception:
indexing with an out-of-range int or with None, or the attribute access
self.waypoints.waypoints when self.waypoints is still None (the source
checks self.pose but never self.waypoints). -/
def process_traffic_lights (s : DetectorState) : Option (Int × Color) :=
  match s.pose with
  | none => some (-1, Color.unknown)
  | some p =>
    match light_idx s p with
    | none => some (-1, Color.unknown)
    | some li =>
      match pyIndex s.lights li with
      | none => none
      | some light =>
        if stop_line_idx s light ≠ stop_forward_idx s p then
          some (-1, Color.unknown)
        else
          match stop_line_idx s light with
          | none => none
          | some sli =>
            match pyIndex s.stop_line_positions_poses sli with
            | none => none
            | some stopPose =>
              match s.waypoints with
              | none => none
              | some wps =>
                match get_closest_waypoint (some stopPose) (some wps)
                    Mode.nearest with
                | none => some (-1, Color.unknown)
                | some swi => some (swi, light.state)

/-- image_cb on one camera frame: run the resolver against the current
snapshots, then the publish logic; returns the updated detector state and
the value published this frame. -/
def image_cb (s : DetectorState) : Option (DetectorState × Option Int) :=
  match process_traffic_lights s with
  | none => none
  | some (light_wp, st) =>
    let r := image_cb_step s.stab light_wp st
    some ({ s with stab := r.1 }, r.2)

/-- Run image_cb for n consecutive identical camera frames, collecting the
published outputs in order. -/
def run_image_cb (s : DetectorState) : Nat → Option (DetectorState × List (Option Int))
  | 0 => some (s, [])
  | n + 1 =>
    match image_cb s with
    | none => none
    | some (s2, out) =>
      match run_image_cb s2 n with
      | none => none
      | some (s3, outs) => some (s3, out :: outs)

/-- Identity quaternion: heading along +x. -/
def q0 : Quat := { qx := 0, qy := 0, qz := 0, qw := 1 }

def mkPose (x y : ℚ) : Pose := { position := { x := x, y := y }, orientation := q0 }

/-- Scenario A of the spec: waypoints at x = 0,10,20,30,40, one RED light
at (25,0), one stop line at (22,0), car at the origin heading +x, fresh
stabilizer state. -/
def scenarioA : DetectorState :=
  { pose := some (mkPose 0 0)
  , waypoints := some [mkPose 0 0, mkPose 10 0, mkPose 20 0, mkPose 30 0, mkPose 40 0]
  , lights := [{ pose := mkPose 25 0, state := Color.red }]
  , stop_line_positions_poses := [mkPose 22 0]
  , stab := stabInit }

/-- Scenario refuting C3: the sole light (and stop line, and waypoint) sits
at (-5, 0), strictly behind a car at the origin heading +x. -/
def behindScenario : DetectorState :=
  { pose := some (mkPose 0 0)
  , waypoints := some [mkPose (-5) 0]
  , lights := [{ pose := mkPose (-5) 0, state := Color.red }]
  , stop_line_positions_poses := [mkPose (-5) 0]
  , stab := stabInit }

/-- Scenario for C7: the matched light at (100, 0) is nearest stop line 0
at (98, 0), while the car at the origin is nearest stop line 1 at (5, 0). -/
def c7Scenario : DetectorState :=
  { pose := some (mkPose 0 0)
  , waypoints := some [mkPose 0 0]
  , lights := [{ pose := mkPose 100 0, state := Color.green }]
  , stop_line_positions_poses := [mkPose 98 0, mkPose 5 0]
  , stab := stabInit }

/-- Scenario refuting C2: pose present, route snapshot absent, and a
consistent light/stop-line pair in range, so the resolver reaches the
attribute access self.waypoints.waypoints on None. -/
def noRouteScenario : DetectorState :=
  { pose := some (mkPose 0 0)
  , waypoints := none
  , lights := [{ pose := mkPose 25 0, state := Color.red }]
  , stop_line_positions_poses := [mkPose 22 0]
  , stab := stabInit }

/-- A stabilizer state already committed to GREEN with a high counter. -/
def stabGreen7 : StabState :=
  { state := Color.green, last_state := Color.green, last_wp := 9,
    state_count := 7 }

/-- Detector state with no pose snapshot. -/
def noPoseScenario : DetectorState :=
  { pose := none
  , waypoints := none
  , lights := []
  , stop_line_positions_poses := []
  , stab := stabInit }

/-- The "forward" branch of the loop never updates min_dist or min_idx, so
the loop returns its accumulator unchanged. -/
theorem gcw_loop_forward (p : Pose) :
    ∀ (l : List Pose) (i : Nat) (minD : Option ℚ) (minIdx : Option Nat),
      gcw_loop p Mode.forward l i minD minIdx = minIdx := by
  intro l
  induction l with
  | nil => intro i minD minIdx; rfl
  | cons wp0 rest ih =>
    intro i minD minIdx
    simp only [gcw_loop]
    split
    · exact ih (i + 1) minD minIdx
    · exact ih (i + 1) minD minIdx

/-- Characterization of the nearest-mode loop once the accumulator holds a
recorded candidate (j at squared distance d, with d below the cutoff): the
loop returns some index, which is either the accumulated j (when no later
candidate strictly beats d) or the absolute index i + k of a candidate that
beats d, ties resolved to the earliest position. -/
theorem gcw_loop_nearest_some (p : Pose) :
    ∀ (l : List Pose) (i : Nat) (d : ℚ) (j : Nat), d < search_range_sq →
      ∃ r, gcw_loop p Mode.nearest l i (some d) (some j) = some r ∧
        ((r = j ∧ ∀ k wp, l.get? k = some wp → d ≤ get_distance_between_poses wp p) ∨
         (∃ k wp, l.get? k = some wp ∧ r = i + k ∧
            get_distance_between_poses wp p < d ∧
            (∀ m wpm, m < k → l.get? m = some wpm →
              get_distance_between_poses wp p < get_distance_between_poses wpm p) ∧
            (∀ m wpm, l.get? m = some wpm →
              get_distance_between_poses wp p ≤ get_distance_between_poses wpm p))) := by
  intro l
  induction l with
  | nil =>
    intro i d j hd
    refine ⟨j, rfl, Or.inl ⟨rfl, ?_⟩⟩
    intro k wp h
    simp at h
  | cons wp0 rest ih =>
    intro i d j hd
    by_cases h0 : get_distance_between_poses wp0 p < d
    · have hcut : get_distance_between_poses wp0 p < search_range_sq := lt_trans h0 hd
      have hstep : gcw_loop p Mode.nearest (wp0 :: rest) i (some d) (some j)
          = gcw_loop p Mode.nearest rest (i + 1)
              (some (get_distance_between_poses wp0 p)) (some i) := by
        simp [gcw_loop, lt_min_dist, h0, hcut]
      obtain ⟨r, hr, hcase⟩ := ih (i + 1) (get_distance_between_poses wp0 p) i hcut
      refine ⟨r, hstep.trans hr, Or.inr ?_⟩
      rcases hcase with ⟨hrj, hall⟩ | ⟨k, wpk, hget, hrk, hlt, hearly, hall⟩
      · refine ⟨0, wp0, by simp, by omega, h0, ?_, ?_⟩
        · intro m wpm hm hgetm
          exact absurd hm (Nat.not_lt_zero m)
        · intro m wpm hgetm
          cases m with
          | zero =>
            simp only [List.get?_cons_zero, Option.some.injEq] at hgetm
            subst hgetm
            exact le_refl _
          | succ m2 =>
            simp only [List.get?_cons_succ] at hgetm
            exact hall m2 wpm hgetm
      · refine ⟨k + 1, wpk, by simpa using hget, by omega, lt_trans hlt h0, ?_, ?_⟩
        · intro m wpm hm hgetm
          cases m with
          | zero =>
            simp only [List.get?_cons_zero, Option.some.injEq] at hgetm
            subst hgetm
            exact hlt
          | succ m2 =>
            simp only [List.get?_cons_succ] at hgetm
            exact hearly m2 wpm (Nat.lt_of_succ_lt_succ hm) hgetm
        · intro m wpm hgetm
          cases m with
          | zero =>
            simp only [List.get?_cons_zero, Option.some.injEq] at hgetm
            subst hgetm
            exact le_of_lt hlt
          | succ m2 =>
            simp only [List.get?_cons_succ] at hgetm
            exact hall m2 wpm hgetm
    · have hstep : gcw_loop p Mode.nearest (wp0 :: rest) i (some d) (some j)
          = gcw_loop p Mode.nearest rest (i + 1) (some d) (some j) := by
        simp [gcw_loop, lt_min_dist, h0]
      obtain ⟨r, hr, hcase⟩ := ih (i + 1) d j hd
      refine ⟨r, hstep.trans hr, ?_⟩
      rcases hcase with ⟨hrj, hall⟩ | ⟨k, wpk, hget, hrk, hlt, hearly, hall⟩
      · refine Or.inl ⟨hrj, ?_⟩
        intro m wpm hgetm
        cases m with
        | zero =>
          simp only [List.get?_cons_zero, Option.some.injEq] at hgetm
          subst hgetm
          exact not_lt.mp h0
        | succ m2 =>
          simp only [List.get?_cons_succ] at hgetm
          exact hall m2 wpm hgetm
      · refine Or.inr ⟨k + 1, wpk, by simpa using hget, by omega, hlt, ?_, ?_⟩
        · intro m wpm hm hgetm
          cases m with
          | zero =>
            simp only [List.get?_cons_zero, Option.some.injEq] at hgetm
            subst hgetm
            exact lt_of_lt_of_le hlt (not_lt.mp h0)
          | succ m2 =>
            simp only [List.get?_cons_succ] at hgetm
            exact hearly m2 wpm (Nat.lt_of_succ_lt_succ hm) hgetm
        · intro m wpm hgetm
          cases m with
          | zero =>
            simp only [List.get?_cons_zero, Option.some.injEq] at hgetm
            subst hgetm
            exact le_of_lt (lt_of_lt_of_le hlt (not_lt.mp h0))
          | succ m2 =>
            simp only [List.get?_cons_succ] at hgetm
            exact hall m2 wpm hgetm

/-- Characterization of the nearest-mode loop from the fresh accumulator
(min_dist = inf, min_idx = None): either no candidate lies within the
cutoff and the result is none, or the result is the absolute index i + k of
the strictly-first minimal candidate within the cutoff. -/
theorem gcw_loop_nearest_none (p : Pose) :
    ∀ (l : List Pose) (i : Nat),
      (gcw_loop p Mode.nearest l i none none = none ∧
        ∀ k wp, l.get? k = some wp →
          search_range_sq ≤ get_distance_between_poses wp p) ∨
      (∃ k wp, l.get? k = some wp ∧
        gcw_loop p Mode.nearest l i none none = some (i + k) ∧
        get_distance_between_poses wp p < search_range_sq ∧
        (∀ m wpm, m < k → l.get? m = some wpm →
          get_distance_between_poses wp p < get_distance_between_poses wpm p) ∧
        (∀ m wpm, l.get? m = some wpm →
          get_distance_between_poses wp p ≤ get_distance_between_poses wpm p)) := by
  intro l
  induction l with
  | nil =>
    intro i
    refine Or.inl ⟨rfl, ?_⟩
    intro k wp h
    simp at h
  | cons wp0 rest ih =>
    intro i
    by_cases h0 : get_distance_between_poses wp0 p < search_range_sq
    · have hstep : gcw_loop p Mode.nearest (wp0 :: rest) i none none
          = gcw_loop p Mode.nearest rest (i + 1)
              (some (get_distance_between_poses wp0 p)) (some i) := by
        simp [gcw_loop, lt_min_dist, h0]
      obtain ⟨r, hr, hcase⟩ := gcw_loop_nearest_some p rest (i + 1)
        (get_distance_between_poses wp0 p) i h0
      refine Or.inr ?_
      rcases hcase with ⟨hrj, hall⟩ | ⟨k, wpk, hget, hrk, hlt, hearly, hall⟩
      · refine ⟨0, wp0, by simp, ?_, h0, ?_, ?_⟩
        · rw [hstep, hr, hrj]
          norm_num
        · intro m wpm hm hgetm
          exact absurd hm (Nat.not_lt_zero m)
        · intro m wpm hgetm
          cases m with
          | zero =>
            simp only [List.get?_cons_zero, Option.some.injEq] at hgetm
            subst hgetm
            exact le_refl _
          | succ m2 =>
            simp only [List.get?_cons_succ] at hgetm
            exact hall m2 wpm hgetm
      · refine ⟨k + 1, wpk, by simpa using hget, ?_, lt_trans hlt h0, ?_, ?_⟩
        · rw [hstep, hr, hrk]
          norm_num
          omega
        · intro m wpm hm hgetm
          cases m with
          | zero =>
            simp only [List.get?_cons_zero, Option.some.injEq] at hgetm
            subst hgetm
            exact hlt
          | succ m2 =>
            simp only [List.get?_cons_succ] at hgetm
            exact hearly m2 wpm (Nat.lt_of_succ_lt_succ hm) hgetm
        · intro m wpm hgetm
          cases m with
          | zero =>
            simp only [List.get?_cons_zero, Option.some.injEq] at hgetm
            subst hgetm
            exact le_of_lt hlt
          | succ m2 =>
            simp only [List.get?_cons_succ] at hgetm
            exact hall m2 wpm hgetm
    · have hstep : gcw_loop p Mode.nearest (wp0 :: rest) i none none
          = gcw_loop p Mode.nearest rest (i + 1) none none := by
        simp [gcw_loop, lt_min_dist, h0]
      rcases ih (i + 1) with ⟨hnone, hall⟩ | ⟨k, wpk, hget, hrk, hlt, hearly, hall⟩
      · refine Or.inl ⟨hstep.trans hnone, ?_⟩
        intro m wpm hgetm
        cases m with
        | zero =>
          simp only [List.get?_cons_zero, Option.some.injEq] at hgetm
          subst hgetm
          exact not_lt.mp h0
        | succ m2 =>
          simp only [List.get?_cons_succ] at hgetm
          exact hall m2 wpm hgetm
      · refine Or.inr ⟨k + 1, wpk, by simpa using hget, ?_, hlt, ?_, ?_⟩
        · rw [hstep, hrk]
          norm_num
          omega
        · intro m wpm hm hgetm
          cases m with
          | zero =>
            simp only [List.get?_cons_zero, Option.some.injEq] at hgetm
            subst hgetm
            exact lt_of_lt_of_le hlt (not_lt.mp h0)
          | succ m2 =>
            simp only [List.get?_cons_succ] at hgetm
            exact hearly m2 wpm (Nat.lt_of_succ_lt_succ hm) hgetm
        · intro m wpm hgetm
          cases m with
          | zero =>
            simp only [List.get?_cons_zero, Option.some.injEq] at hgetm
            subst hgetm
            exact le_of_lt (lt_of_lt_of_le hlt (not_lt.mp h0))
          | succ m2 =>
            simp only [List.get?_cons_succ] at hgetm
            exact hall m2 wpm hgetm

/-- C5: for every reference pose and every candidate list, calling
get_closest_waypoint in "forward" mode returns None: the forward branch
computes the car orientation data but never records a minimum candidate. -/
theorem C5_forward_no_match (p : Pose) (wps : List Pose) :
    get_closest_waypoint (some p) (some wps) Mode.forward = none := by
  simp [get_closest_waypoint, gcw_loop_forward]

/-- C8: get_closest_waypoint never returns an index whose candidate lies at
squared planar distance of search_range_sq = 400 * 400 or more from the
reference, i.e. at planar distance beyond the 400-unit cutoff. -/
theorem C8_within_cutoff (p : Pose) (wps : List Pose) (mode : Mode) (i : Int)
    (h : get_closest_waypoint (some p) (some wps) mode = some i) :
    ∃ (k : Nat) (wp : Pose), i = (k : Int) ∧ wps.get? k = some wp ∧
      get_distance_between_poses wp p < search_range_sq := by
  cases mode with
  | forward => simp [get_closest_waypoint, gcw_loop_forward] at h
  | nearest =>
    simp only [get_closest_waypoint] at h
    rcases gcw_loop_nearest_none p wps 0 with ⟨hnone, _⟩ |
      ⟨k, wp, hget, hrk, hlt, _, _⟩
    · rw [hnone] at h
      simp at h
    · rw [hrk] at h
      have hik : i = (k : Int) := by
        simp at h
        omega
      exact ⟨k, wp, hik, hget, hlt⟩

/-- C8 witness: on a single candidate at squared distance 25 the search
returns index 0, and the theorem yields the cutoff bound there. -/
theorem C8_within_cutoff_witness :
    ∃ (k : Nat) (wp : Pose), (0 : Int) = (k : Int) ∧ [mkPose 3 4].get? k = some wp ∧
      get_distance_between_poses wp (mkPose 0 0) < search_range_sq :=
  C8_within_cutoff (mkPose 0 0) [mkPose 3 4] Mode.nearest 0 (by
    norm_num [get_closest_waypoint, gcw_loop, lt_min_dist,
      get_distance_between_poses, search_range_sq, mkPose])

/-- C9: whenever some candidate lies within the cutoff, the nearest-mode
search returns a match, and it is a minimum-distance candidate, with ties
at equal minimal distance resolved to the lowest index (every strictly
earlier candidate is strictly farther). -/
theorem C9_min_dist_first (p : Pose) (wps : List Pose)
    (h : ∃ k wp, wps.get? k = some wp ∧
      get_distance_between_poses wp p < search_range_sq) :
    ∃ (i : Nat) (wp : Pose),
      get_closest_waypoint (some p) (some wps) Mode.nearest = some (i : Int) ∧
      wps.get? i = some wp ∧
      (∀ j wpj, wps.get? j = some wpj →
        get_distance_between_poses wp p ≤ get_distance_between_poses wpj p) ∧
      (∀ j wpj, j < i → wps.get? j = some wpj →
        get_distance_between_poses wp p < get_distance_between_poses wpj p) := by
  obtain ⟨k0, wp0, hget0, hlt0⟩ := h
  rcases gcw_loop_nearest_none p wps 0 with ⟨hnone, hall⟩ |
    ⟨k, wp, hget, hrk, hlt, hearly, hall⟩
  · exact absurd hlt0 (not_lt.mpr (hall k0 wp0 hget0))
  · refine ⟨k, wp, ?_, hget, hall, ?_⟩
    · simp [get_closest_waypoint, hrk]
    · intro j wpj hj hgetj
      exact hearly j wpj hj hgetj

/-- C9 witness: with a first candidate beyond the cutoff and a second one
within it, the search returns index 1, the minimum-distance candidate. -/
theorem C9_min_dist_first_witness :
    ∃ (i : Nat) (wp : Pose),
      get_closest_waypoint (some (mkPose 0 0)) (some [mkPose 500 0, mkPose 3 0])
        Mode.nearest = some (i : Int) ∧
      [mkPose 500 0, mkPose 3 0].get? i = some wp ∧
      (∀ j wpj, [mkPose 500 0, mkPose 3 0].get? j = some wpj →
        get_distance_between_poses wp (mkPose 0 0)
          ≤ get_distance_between_poses wpj (mkPose 0 0)) ∧
      (∀ j wpj, j < i → [mkPose 500 0, mkPose 3 0].get? j = some wpj →
        get_distance_between_poses wp (mkPose 0 0)
          < get_distance_between_poses wpj (mkPose 0 0)) :=
  C9_min_dist_first (mkPose 0 0) [mkPose 500 0, mkPose 3 0]
    ⟨1, mkPose 3 0, rfl, by
      norm_num [get_distance_between_poses, search_range_sq, mkPose]⟩

/-- C10 counterexample: the three failure cases do not share a single
result: a None argument yields -1 while an empty candidate list yields
None, two distinct values. -/
theorem C10_counterexample :
    get_closest_waypoint none (some []) Mode.nearest = some (-1) ∧
    get_closest_waypoint (some (mkPose 7 8)) (some []) Mode.nearest = none ∧
    (some (-1 : Int) ≠ (none : Option Int)) := by
  refine ⟨rfl, rfl, by simp⟩

/-- C10 amended: a None pose or None candidate list yields the int -1; an
empty list, or a list with no candidate within the cutoff, yields None. -/
theorem C10_no_match_results (p : Pose) (wps : List Pose) (mode : Mode) :
    (∀ ws, get_closest_waypoint none ws mode = some (-1)) ∧
    (get_closest_waypoint (some p) none mode = some (-1)) ∧
    (get_closest_waypoint (some p) (some []) mode = none) ∧
    ((∀ k wp, wps.get? k = some wp →
        search_range_sq ≤ get_distance_between_poses wp p) →
      get_closest_waypoint (some p) (some wps) mode = none) := by
  refine ⟨?_, rfl, ?_, ?_⟩
  · intro ws
    cases ws <;> rfl
  · cases mode <;> rfl
  · intro hfar
    cases mode with
    | forward => simp [get_closest_waypoint, gcw_loop_forward]
    | nearest =>
      rcases gcw_loop_nearest_none p wps 0 with ⟨hnone, _⟩ |
        ⟨k, wp, hget, hrk, hlt, _, _⟩
      · simp [get_closest_waypoint, hnone]
      · exact absurd hlt (not_lt.mpr (hfar k wp hget))

/-- C10 witness: a sole candidate at squared distance well beyond the
cutoff yields None. -/
theorem C10_no_match_results_witness :
    get_closest_waypoint (some (mkPose 1 2)) (some [mkPose 900 0]) Mode.nearest
      = none := by
  refine (C10_no_match_results (mkPose 1 2) [mkPose 900 0] Mode.nearest).2.2.2 ?_
  intro k wp hget
  cases k with
  | zero =>
    simp only [List.get?_cons_zero, Option.some.injEq] at hget
    subst hget
    norm_num [get_distance_between_poses, search_range_sq, mkPose]
  | succ k2 => simp at hget

/-- The loop result does not depend on the orientation of the reference pose:
the distance reads only positions, and the forward branch records nothing. -/
theorem gcw_loop_orientation (pos : Position) (o o2 : Quat) (mode : Mode) :
    ∀ (l : List Pose) (i : Nat) (minD : Option ℚ) (minIdx : Option Nat),
      gcw_loop { position := pos, orientation := o } mode l i minD minIdx
        = gcw_loop { position := pos, orientation := o2 } mode l i minD minIdx := by
  intro l
  induction l with
  | nil => intro i minD minIdx; rfl
  | cons wp0 rest ih =>
    intro i minD minIdx
    simp only [gcw_loop]
    rw [show get_distance_between_poses wp0 { position := pos, orientation := o }
        = get_distance_between_poses wp0 { position := pos, orientation := o2 } from rfl]
    split
    · cases mode with
      | nearest => exact ih (i + 1) (some _) (some i)
      | forward => exact ih (i + 1) minD minIdx
    · exact ih (i + 1) minD minIdx

/-- get_closest_waypoint is independent of the reference orientation. -/
theorem gcw_orientation (pos : Position) (o o2 : Quat) (ws : Option (List Pose))
    (mode : Mode) :
    get_closest_waypoint (some { position := pos, orientation := o }) ws mode
      = get_closest_waypoint (some { position := pos, orientation := o2 }) ws mode := by
  cases ws with
  | none => rfl
  | some wps =>
    simp only [get_closest_waypoint]
    rw [gcw_loop_orientation pos o o2 mode wps 0 none none]

/-- C3 counterexample: with every entity strictly behind the heading (the
dot product of the +x heading with the car-to-light vector is -5 < 0), the
resolver still matches the light and returns (0, RED); under the claimed
directional (ahead-only) light and stop-line searches it would have had to
return the no-relevant-light result (-1, UNKNOWN). -/
theorem C3_counterexample :
    process_traffic_lights behindScenario = some (0, Color.red) ∧
    (((-5 : ℚ) - 0) * 1 + ((0 : ℚ) - 0) * 0 < 0) ∧
    (some ((0 : Int), Color.red) ≠ some ((-1 : Int), Color.unknown)) := by
  refine ⟨?_, by norm_num, by simp⟩
  norm_num [process_traffic_lights, light_idx, stop_line_idx, stop_forward_idx,
    lightPoses, pyIndex, get_closest_waypoint, gcw_loop, lt_min_dist,
    get_distance_between_poses, search_range_sq, behindScenario, mkPose, q0]

/-- C3 amended: no call site of get_closest_waypoint in the resolver passes
a mode, so every search runs in non-directional (nearest) mode; hence the
result of process_traffic_lights is independent of the vehicle heading. -/
theorem C3_heading_independent (s : DetectorState) (pos : Position) (o o2 : Quat) :
    process_traffic_lights
        { s with pose := some { position := pos, orientation := o } }
      = process_traffic_lights
        { s with pose := some { position := pos, orientation := o2 } } := by
  simp only [process_traffic_lights, light_idx, stop_line_idx, stop_forward_idx,
    lightPoses]
  simp only [gcw_orientation pos o o2]

/-- C7: whenever the stop-line index found from the matched light differs
from the stop-line index found from the car pose, process_traffic_lights
returns the no-relevant-light result (-1, UNKNOWN). -/
theorem C7_consistency_check (s : DetectorState) (p : Pose) (li : Int)
    (light : Light)
    (hp : s.pose = some p)
    (hl : light_idx s p = some li)
    (hpy : pyIndex s.lights li = some light)
    (hne : stop_line_idx s light ≠ stop_forward_idx s p) :
    process_traffic_lights s = some (-1, Color.unknown) := by
  simp only [process_traffic_lights, hp, hl, hpy]
  rw [if_pos hne]

/-- C7 witness: in c7Scenario the two stop-line indices are 0 and 1, and
the resolver returns (-1, UNKNOWN). -/
theorem C7_consistency_check_witness :
    process_traffic_lights c7Scenario = some (-1, Color.unknown) := by
  refine C7_consistency_check c7Scenario (mkPose 0 0) 0
    { pose := mkPose 100 0, state := Color.green } rfl ?_ rfl ?_
  · norm_num [light_idx, lightPoses, c7Scenario, get_closest_waypoint, gcw_loop,
      lt_min_dist, get_distance_between_poses, search_range_sq, mkPose]
  · norm_num [stop_line_idx, stop_forward_idx, c7Scenario, get_closest_waypoint,
      gcw_loop, lt_min_dist, get_distance_between_poses, search_range_sq, mkPose]

/-- C2 counterexample: with the route snapshot absent (and pose present,
light found, stop lines consistent) process_traffic_lights raises instead
of returning (-1, UNKNOWN). -/
theorem C2_counterexample :
    process_traffic_lights noRouteScenario = none ∧
    ((none : Option (Int × Color)) ≠ some (-1, Color.unknown)) := by
  refine ⟨?_, by simp⟩
  norm_num [process_traffic_lights, light_idx, stop_line_idx, stop_forward_idx,
    lightPoses, pyIndex, get_closest_waypoint, gcw_loop, lt_min_dist,
    get_distance_between_poses, search_range_sq, noRouteScenario, mkPose, q0]

/-- C2 amended: only the pose snapshot is checked.  An absent pose yields
(-1, UNKNOWN) without error; an absent route is not checked, and when the
resolution reaches the waypoint step it raises (none) instead. -/
theorem C2_missing_snapshots (s : DetectorState) :
    (s.pose = none → process_traffic_lights s = some (-1, Color.unknown)) ∧
    (∀ p li light sli stopPose,
      s.pose = some p → s.waypoints = none →
      light_idx s p = some li →
      pyIndex s.lights li = some light →
      stop_line_idx s light = stop_forward_idx s p →
      stop_line_idx s light = some sli →
      pyIndex s.stop_line_positions_poses sli = some stopPose →
      process_traffic_lights s = none) := by
  constructor
  · intro hp
    simp only [process_traffic_lights, hp]
  · intro p li light sli stopPose hp hw hl hpy heq hsli hpys
    simp only [process_traffic_lights, hp, hl, hpy]
    rw [if_neg fun hcon => hcon heq]
    simp only [hsli, hpys, hw]

/-- C2 witness: the pose-absent branch returns (-1, UNKNOWN), and the
route-absent branch raises, both via the amended theorem. -/
theorem C2_missing_snapshots_witness :
    process_traffic_lights noPoseScenario = some (-1, Color.unknown) ∧
    process_traffic_lights noRouteScenario = none := by
  constructor
  · exact (C2_missing_snapshots noPoseScenario).1 rfl
  · refine (C2_missing_snapshots noRouteScenario).2 (mkPose 0 0) 0
      { pose := mkPose 25 0, state := Color.red } 0 (mkPose 22 0)
      rfl rfl ?_ rfl ?_ ?_ rfl
    · norm_num [light_idx, lightPoses, noRouteScenario, get_closest_waypoint,
        gcw_loop, lt_min_dist, get_distance_between_poses, search_range_sq, mkPose]
    · norm_num [stop_line_idx, stop_forward_idx, noRouteScenario,
        get_closest_waypoint, gcw_loop, lt_min_dist, get_distance_between_poses,
        search_range_sq, mkPose]
    · norm_num [stop_line_idx, noRouteScenario, get_closest_waypoint, gcw_loop,
        lt_min_dist, get_distance_between_poses, search_range_sq, mkPose]

/-- C4 counterexample: on a frame whose raw color differs from the stored
observed color (here, the very first RED frame from the fresh state), the
first branch of image_cb resets the counter and publishes nothing at all,
so not exactly one value is published per incoming frame. -/
theorem C4_counterexample :
    stabInit.state ≠ Color.red ∧ (image_cb_step stabInit 5 Color.red).2 = none := by
  decide

/-- C4 amended: a value is published exactly on frames whose raw color
equals the stored observed color, and every published value equals the
post-frame last_wp, i.e. the last stabilized decision. -/
theorem C4_publish_characterization (s : StabState) (w : Int) (c : Color) :
    ((image_cb_step s w c).2 = none ↔ s.state ≠ c) ∧
    (∀ v, (image_cb_step s w c).2 = some v → v = (image_cb_step s w c).1.last_wp) := by
  by_cases h1 : s.state ≠ c
  · simp [image_cb_step, h1]
  · by_cases h2 : STATE_COUNT_THRESHOLD ≤ s.state_count <;>
      simp [image_cb_step, h1, h2]

/-- C4 witness: a repeated-color frame below threshold republishes the
(unchanged) last_wp, matching the post-frame last_wp. -/
theorem C4_publish_characterization_witness :
    (-1 : Int) = (image_cb_step
      { state := Color.red, last_state := Color.unknown, last_wp := -1,
        state_count := 1 } 9 Color.red).1.last_wp :=
  (C4_publish_characterization
    { state := Color.red, last_state := Color.unknown, last_wp := -1,
      state_count := 1 } 9 Color.red).2 (-1) (by decide)

/-- Once the stored color equals the fed color and the counter has reached
the threshold, every further frame with that color recommits the stable
state and publishes the same output. -/
theorem run_stab_commit (w : Int) (c : Color) :
    ∀ (n : Nat) (s : StabState), s.state = c →
      STATE_COUNT_THRESHOLD ≤ s.state_count →
      (run_stab s w c n).2
          = List.replicate n (some (if c = Color.red then w else -1)) ∧
      (run_stab s w c n).1.state = c ∧
      (run_stab s w c n).1.state_count = s.state_count + n ∧
      (n = 0 → (run_stab s w c n).1 = s) ∧
      (n ≠ 0 → (run_stab s w c n).1.last_state = c ∧
        (run_stab s w c n).1.last_wp = (if c = Color.red then w else -1)) := by
  intro n
  induction n with
  | zero =>
    intro s hs hc
    exact ⟨rfl, hs, rfl, fun _ => rfl, fun hn => absurd rfl hn⟩
  | succ n2 ih =>
    intro s hs hc
    have hstep : image_cb_step s w c
        = ({ s with last_state := s.state,
                    last_wp := if c = Color.red then w else -1,
                    state_count := s.state_count + 1 },
           some (if c = Color.red then w else -1)) := by
      simp [image_cb_step, hs, hc]
    obtain ⟨ho, hstate, hcount, hzero, hpos⟩ := ih
      { s with last_state := s.state,
               last_wp := if c = Color.red then w else -1,
               state_count := s.state_count + 1 }
      hs (le_trans hc (Nat.le_succ _))
    have hrun : run_stab s w c (n2 + 1)
        = ((run_stab { s with last_state := s.state,
                              last_wp := if c = Color.red then w else -1,
                              state_count := s.state_count + 1 } w c n2).1,
           some (if c = Color.red then w else -1) ::
             (run_stab { s with last_state := s.state,
                                last_wp := if c = Color.red then w else -1,
                                state_count := s.state_count + 1 } w c n2).2) := by
      simp only [run_stab, hstep]
    refine ⟨?_, ?_, ?_, ?_, ?_⟩
    · rw [hrun]
      simp only [ho, List.replicate_succ]
    · rw [hrun]
      exact hstate
    · rw [hrun]
      simp only [hcount]
      omega
    · intro hn
      exact absurd hn (Nat.succ_ne_zero n2)
    · intro _
      rw [hrun]
      cases Nat.eq_zero_or_pos n2 with
      | inl h0 =>
        subst h0
        rw [hzero rfl]
        exact ⟨hs, rfl⟩
      | inr hpos2 =>
        exact hpos (Nat.pos_iff_ne_zero.mp hpos2)

/-- C6 counterexample: from the fresh initial state, feeding the same raw
color (RED, waypoint 2) for exactly THRESHOLD = 3 consecutive frames
produces no state change to stable at all: last_state is still UNKNOWN and
last_wp still -1 after the third repetition (the first frame only resets
the counter, and the threshold test precedes the increment). -/
theorem C6_counterexample :
    run_stab stabInit 2 Color.red 3
      = ({ state := Color.red, last_state := Color.unknown, last_wp := -1,
           state_count := 3 },
         [none, some (-1), some (-1)]) ∧
    Color.unknown ≠ Color.red := by
  decide

/-- C6 amended: from any state whose stored color differs from the fed
color, the first frame resets the counter (publishing nothing), the next
two frames republish the previous last_wp, and the single state change to
stable occurs at the 4th = (THRESHOLD+1)-th repetition, every subsequent
same-color frame republishing the same output. -/
theorem C6_stabilizer_commit (s : StabState) (w : Int) (c : Color)
    (h : s.state ≠ c) (n : Nat) :
    (run_stab s w c (n + 3)).2
      = none :: some s.last_wp :: some s.last_wp ::
          List.replicate n (some (if c = Color.red then w else -1)) ∧
    (run_stab s w c (n + 3)).1.state = c ∧
    (run_stab s w c (n + 3)).1.state_count = n + 3 ∧
    (n = 0 → (run_stab s w c (n + 3)).1.last_state = s.last_state ∧
      (run_stab s w c (n + 3)).1.last_wp = s.last_wp) ∧
    (n ≠ 0 → (run_stab s w c (n + 3)).1.last_state = c ∧
      (run_stab s w c (n + 3)).1.last_wp = (if c = Color.red then w else -1)) := by
  have h1 : image_cb_step s w c
      = ({ s with state := c, state_count := 1 }, none) := by
    simp [image_cb_step, h]
  have h2 : image_cb_step { s with state := c, state_count := 1 } w c
      = ({ s with state := c, state_count := 2 }, some s.last_wp) := by
    simp [image_cb_step, STATE_COUNT_THRESHOLD]
  have h3 : image_cb_step { s with state := c, state_count := 2 } w c
      = ({ s with state := c, state_count := 3 }, some s.last_wp) := by
    simp [image_cb_step, STATE_COUNT_THRESHOLD]
  obtain ⟨ho, hstate, hcount, hzero, hpos⟩ := run_stab_commit w c n
    { s with state := c, state_count := 3 } rfl (le_refl _)
  have hrun : run_stab s w c (n + 3)
      = ((run_stab { s with state := c, state_count := 3 } w c n).1,
         none :: some s.last_wp :: some s.last_wp ::
           (run_stab { s with state := c, state_count := 3 } w c n).2) := by
    simp only [run_stab, h1, h2, h3]
  refine ⟨?_, ?_, ?_, ?_, ?_⟩
  · rw [hrun]
    simp only [ho]
  · rw [hrun]
    exact hstate
  · rw [hrun]
    simp only [hcount]
    omega
  · intro hn
    rw [hrun]
    subst hn
    rw [hzero rfl]
    exact ⟨rfl, rfl⟩
  · intro hn
    rw [hrun]
    exact hpos hn

/-- C6 witness: from a committed GREEN state (count 7), two frames beyond
the first three frames commit RED with waypoint 5. -/
theorem C6_stabilizer_commit_witness :
    (run_stab stabGreen7 5 Color.red (2 + 3)).2
      = none :: some 9 :: some 9 :: List.replicate 2 (some 5) := by
  have h := (C6_stabilizer_commit stabGreen7 5 Color.red (by decide) 2).1
  simpa [stabGreen7] using h

/-- C1 counterexample: in scenario A the resolver does return (2, RED), but
after 3 consecutive identical camera frames from the fresh stabilizer state
the published values are [nothing, -1, -1] and the committed stop index is
still -1, not 2: the claimed published index 2 after 3 frames is false. -/
theorem C1_counterexample :
    (run_image_cb scenarioA 3).map Prod.snd = some [none, some (-1), some (-1)] ∧
    (run_image_cb scenarioA 3).map (fun r => r.1.stab.last_wp) = some (-1) ∧
    ((-1 : Int) ≠ 2) := by
  refine ⟨?_, ?_, by decide⟩ <;>
    · norm_num [run_image_cb, image_cb, image_cb_step, stabInit,
        STATE_COUNT_THRESHOLD, process_traffic_lights, light_idx, stop_line_idx,
        stop_forward_idx, lightPoses, pyIndex, get_closest_waypoint, gcw_loop,
        lt_min_dist, get_distance_between_poses, search_range_sq, scenarioA,
        mkPose, q0]
      try decide

/-- C1 amended: in scenario A the resolver returns waypoint index 2 with
raw color RED, and from the fresh stabilizer state the first frame resets
the counter publishing nothing, frames 2 and 3 republish the previous
stabilized index -1, and the 4th consecutive identical frame publishes
index 2. -/
theorem C1_scenarioA_resolution :
    process_traffic_lights scenarioA = some (2, Color.red) ∧
    (run_image_cb scenarioA 4).map Prod.snd
      = some [none, some (-1), some (-1), some 2] := by
  constructor <;>
    · norm_num [run_image_cb, image_cb, image_cb_step, stabInit,
        STATE_COUNT_THRESHOLD, process_traffic_lights, light_idx, stop_line_idx,
        stop_forward_idx, lightPoses, pyIndex, get_closest_waypoint, gcw_loop,
        lt_min_dist, get_distance_between_poses, search_range_sq, scenarioA,
        mkPose, q0]
      try decide
